import Mathlib

/-!
Verification of the typed message-dispatch core of `master_of_puppets`
(`src/message.rs`): a shallow embedding of `Packet` envelopes, the
`Postman`/`Mailbox` data-plane channel, the `ServicePostman` control
plane, and `Mailbox::cleanup`, with theorems about dispatch, replies,
error propagation, ordering and termination.

Modelling conventions:
- async handlers become pure functions; a sequential handler mutating the
  puppet through `&mut self` is modelled as `P → M → P × R` (new state,
  response);
- a tokio `oneshot` reply channel is modelled by a `ReplySlot` recording
  whether its receiving half is still alive, plus, in the outcome of an
  operation, the value the code attempted to `send` into the slot and the
  value the receiver actually observes;
- a tokio `mpsc` channel is modelled as a FIFO list of queued items plus a
  closed flag (closed = all receivers dropped, so `send` fails);
- an `unwrap` panic is modelled by returning `none` from the operation.
-/

namespace MasterOfPuppets

/-- Modelled from the spec: the error enum `PuppeterError` lives in
`errors.rs`, which is not among the provided sources; `message.rs` only
names the two variants `MessageSendError` and `MessageResponseReceiveError`,
and §7 of the spec leaves the rest of the catalogue external, so all other
errors are collapsed into a single catch-all variant. -/
inductive PuppeterError where
  | MessageSendError
  | MessageResponseReceiveError
  | other (detail : String)
deriving DecidableEq, Repr

/-- `puppet::execution::ExecutionVariant`: the per-actor-type dispatch
strategy tag (`Parallel` exists behind the `rayon` feature). -/
inductive ExecutionVariant where
  | Sequential
  | Concurrent
  | Parallel
deriving DecidableEq, Repr

/-- The sending half of a `oneshot` reply channel
(`oneshot::Sender<Result<Response, PuppeterError>>`), reduced to the one
bit that decides behaviour: whether the receiving half is still alive. -/
structure ReplySlot where
  receiverAlive : Bool
deriving DecidableEq, Repr

/-- `Packet<P, M>`: one message value (an `Option`, taken out during
handling) and an optional reply slot. The phantom handler parameter is
dropped; the response type appears on the operations instead. -/
structure Packet (M : Type) where
  message : Option M
  reply_address : Option ReplySlot
deriving DecidableEq, Repr

/-- `Packet::without_reply`. -/
def Packet.without_reply (message : M) : Packet M :=
  { message := some message, reply_address := none }

/-- `Packet::with_reply`. -/
def Packet.with_reply (message : M) (reply_address : ReplySlot) : Packet M :=
  { message := some message, reply_address := some reply_address }

/-- What a `send` into an optional reply slot delivers to the awaiting
receiver: the value only when a slot is present and its receiver is still
alive; otherwise nothing (the failed send is swallowed by
`unwrap_or_else(|_| println!(..))`). -/
def deliveredInto (slot : Option ReplySlot)
    (attempted : Option (Except PuppeterError R)) :
    Option (Except PuppeterError R) :=
  match slot with
  | some s => if s.receiverAlive then attempted else none
  | none => none

/-- Everything observable about one `Envelope::handle_message` call:
the puppet's canonical state afterwards, the packet state afterwards
(message and slot both taken), what the code attempted to send into the
reply slot, what the awaiting receiver observes, and the function's
return value. -/
structure HandleOutcome (P M R : Type) where
  puppet : P
  packet : Packet M
  attempted : Option (Except PuppeterError R)
  delivered : Option (Except PuppeterError R)
  ret : Except PuppeterError Unit
deriving Repr

/-- `Packet::handle_message`: takes the message (`none`, i.e. an unwrap
panic, if already consumed), takes the reply slot, then dispatches by
execution variant. Sequential runs the handler on the live puppet state;
Concurrent and Parallel run it on a clone, so the canonical state is
returned unchanged and only the response escapes through the slot. Every
attempted reply is `Ok(response)`; the function itself returns `Ok(())`. -/
def Packet.handle_message (execution_variant : ExecutionVariant)
    (hnd : P → M → P × R) (self : Packet M) (puppet : P) :
    Option (HandleOutcome P M R) :=
  match self.message with
  | none => none
  | some msg =>
    let reply_address := self.reply_address
    match execution_variant with
    | .Sequential =>
      let stepped := hnd puppet msg
      some { puppet := stepped.1
             packet := { message := none, reply_address := none }
             attempted := reply_address.map fun _ => Except.ok stepped.2
             delivered := deliveredInto reply_address
               (reply_address.map fun _ => Except.ok stepped.2)
             ret := Except.ok () }
    | .Concurrent =>
      let cloned_minion := puppet
      let stepped := hnd cloned_minion msg
      some { puppet := puppet
             packet := { message := none, reply_address := none }
             attempted := reply_address.map fun _ => Except.ok stepped.2
             delivered := deliveredInto reply_address
               (reply_address.map fun _ => Except.ok stepped.2)
             ret := Except.ok () }
    | .Parallel =>
      let cloned_minion := puppet
      let stepped := hnd cloned_minion msg
      some { puppet := puppet
             packet := { message := none, reply_address := none }
             attempted := reply_address.map fun _ => Except.ok stepped.2
             delivered := deliveredInto reply_address
               (reply_address.map fun _ => Except.ok stepped.2)
             ret := Except.ok () }

/-- Everything observable about one `Envelope::reply_error` call. -/
structure ReplyErrorOutcome (M R : Type) where
  packet : Packet M
  attempted : Option (Except PuppeterError R)
  delivered : Option (Except PuppeterError R)
  ret : Except PuppeterError Unit
deriving Repr

/-- `Packet::reply_error`: takes the reply slot if present and sends
`Err(err)` into it (a failed send is swallowed); never touches the
message, never runs the handler, always returns `Ok(())`. -/
def Packet.reply_error (self : Packet M) (err : PuppeterError) :
    ReplyErrorOutcome M R :=
  match self.reply_address with
  | some slot =>
    { packet := { message := self.message, reply_address := none }
      attempted := some (Except.error err)
      delivered := if slot.receiverAlive then some (Except.error err) else none
      ret := Except.ok () }
  | none =>
    { packet := self
      attempted := none
      delivered := none
      ret := Except.ok () }

/-- A tokio `mpsc` channel: FIFO queue of pending items plus a flag for
"the receiving half was dropped" (then `send` fails). -/
structure MpscChannel (α : Type) where
  closed : Bool
  queue : List α
deriving Repr

/-- `Postman::send`: wraps the message in `Packet::without_reply` and
pushes it onto the data-plane channel; a send onto a closed channel is
mapped to `MessageSendError`. -/
def Postman.send (ch : MpscChannel (Packet M)) (message : M) :
    Except PuppeterError Unit × MpscChannel (Packet M) :=
  if ch.closed then (Except.error PuppeterError.MessageSendError, ch)
  else (Except.ok (),
    { ch with queue := ch.queue ++ [Packet.without_reply message] })

/-- `Postman::send_and_await_response`: creates a reply slot, enqueues a
`Packet::with_reply` envelope (failing with `MessageSendError` on a
closed channel), then awaits the slot. `received` is what the oneshot
receiver yields: `some` a result if a value was sent, `none` if the
sender was dropped without a value. -/
def Postman.send_and_await_response (ch : MpscChannel (Packet M))
    (message : M) (slot : ReplySlot)
    (received : Option (Except PuppeterError R)) :
    Except PuppeterError R × MpscChannel (Packet M) :=
  if ch.closed then (Except.error PuppeterError.MessageSendError, ch)
  else
    let ch' := { ch with queue := ch.queue ++ [Packet.with_reply message slot] }
    match received with
    | some (Except.ok response) => (Except.ok response, ch')
    | some (Except.error err) => (Except.error err, ch')
    | none => (Except.error PuppeterError.MessageResponseReceiveError, ch')

/-- End-to-end `ask` against a live Sequential actor: build the
`with_reply` packet (receiver alive, since the caller is awaiting), run
`handle_message` under Sequential dispatch, feed whatever the slot
delivered through the `match res_rx.await` arms of
`send_and_await_response`. Returns the caller-visible result and the
puppet's state afterwards. -/
def ask_roundtrip (hnd : P → M → P × R) (mailboxClosed : Bool)
    (puppet : P) (message : M) : Except PuppeterError R × P :=
  if mailboxClosed then (Except.error PuppeterError.MessageSendError, puppet)
  else
    let packet := Packet.with_reply message { receiverAlive := true }
    match Packet.handle_message ExecutionVariant.Sequential hnd packet puppet with
    | some out =>
      (match out.delivered with
       | some (Except.ok response) => Except.ok response
       | some (Except.error err) => Except.error err
       | none => Except.error PuppeterError.MessageResponseReceiveError,
       out.puppet)
    | none => (Except.error PuppeterError.MessageResponseReceiveError, puppet)

/-- `ServiceCommand`: the closed set of control-plane directives. -/
inductive ServiceCommand where
  | InitiateStart
  | InitiateStop
  | RequestRestart
  | ForceTermination
  | ReportFailure (detail : Option String)
deriving DecidableEq, Repr

/-- `ServicePacket`: a command plus its (mandatory) acknowledgement slot. -/
structure ServicePacket where
  cmd : ServiceCommand
  reply_address : ReplySlot
deriving DecidableEq, Repr

/-- `ServicePostman::send_and_await_response`: enqueues a `ServicePacket`
carrying a fresh acknowledgement slot (failing with `MessageSendError` on
a closed control channel) and awaits the acknowledgement. `ack` is what
the oneshot receiver yields. -/
def ServicePostman.send_and_await_response (ch : MpscChannel ServicePacket)
    (command : ServiceCommand) (slot : ReplySlot)
    (ack : Option (Except PuppeterError Unit)) :
    Except PuppeterError Unit × MpscChannel ServicePacket :=
  if ch.closed then (Except.error PuppeterError.MessageSendError, ch)
  else
    let ch' := { ch with queue := ch.queue ++ [{ cmd := command, reply_address := slot }] }
    match ack with
    | some (Except.ok response) => (Except.ok response, ch')
    | some (Except.error err) => (Except.error err, ch')
    | none => (Except.error PuppeterError.MessageResponseReceiveError, ch')

/-- `Mailbox::recv`: pop the next envelope in FIFO order; on an empty
queue yields `none` (in the code this is either "all senders dropped" or
a suspension that, for these claims, never resumes). -/
def Mailbox.recv (ch : MpscChannel α) : Option α × MpscChannel α :=
  match ch.queue with
  | e :: rest => (some e, { ch with queue := rest })
  | [] => (none, ch)

/-- The three outcomes of `tokio::time::timeout(duration, recv())`:
an envelope arrived within the budget, the channel reported closure
(all senders dropped), or the 100 ms budget elapsed first. -/
inductive TimedRecv (α : Type) where
  | item (a : α)
  | closed
  | timedOut
deriving DecidableEq, Repr

/-- One `timeout(duration, self.recv())` step of `Mailbox::cleanup`: a
queued envelope is returned immediately; an empty queue yields `closed`
when all senders are gone, else the per-item budget elapses (`timedOut`)
because no producer supplies an item in time. -/
def Mailbox.recv_timeout (ch : MpscChannel α) : TimedRecv α × MpscChannel α :=
  match ch.queue with
  | e :: rest => (TimedRecv.item e, { ch with queue := rest })
  | [] => if ch.closed then (TimedRecv.closed, ch) else (TimedRecv.timedOut, ch)

/-- `Mailbox::cleanup`: `while let Ok(Some(_)) = timeout(100ms, recv())`
— keep discarding envelopes while the bounded receive yields one, stop at
the first timeout or channel closure. -/
def Mailbox.cleanup (ch : MpscChannel α) : MpscChannel α :=
  match ch with
  | { closed := c, queue := _ :: rest } => Mailbox.cleanup { closed := c, queue := rest }
  | { closed := _, queue := [] } => ch

/-- `Postman::send` iterated over a list of messages, keeping only the
channel (each send's result is `Ok(())` on an open channel). -/
def Postman.sendAll (ch : MpscChannel (Packet M)) : List M → MpscChannel (Packet M)
  | [] => ch
  | m :: ms => Postman.sendAll (Postman.send ch m).2 ms

/-- `Mailbox::recv` iterated until the channel is empty, collecting the
envelopes in the order they are yielded. -/
def Mailbox.recvAll : MpscChannel α → List α
  | { closed := c, queue := e :: rest } => e :: Mailbox.recvAll { closed := c, queue := rest }
  | { closed := _, queue := [] } => []

/-! ## Helper lemmas -/

variable {M P R α : Type}

/-- `sendAll` on an open channel appends the wrapped messages, in order,
to the existing queue. -/
theorem Postman.sendAll_queue (ms : List M) :
    ∀ ch : MpscChannel (Packet M), ch.closed = false →
      Postman.sendAll ch ms
        = { closed := false, queue := ch.queue ++ ms.map Packet.without_reply } := by
  induction ms with
  | nil =>
    intro ch h
    obtain ⟨c, q⟩ := ch
    simp only at h
    simp [Postman.sendAll, h]
  | cons m ms ih =>
    intro ch h
    obtain ⟨c, q⟩ := ch
    simp only at h
    subst h
    simp only [Postman.sendAll, Postman.send]
    rw [if_neg (by simp)]
    rw [ih _ rfl]
    simp

/-- `recvAll` returns exactly the queue contents, in FIFO order. -/
theorem Mailbox.recvAll_eq_queue (ch : MpscChannel α) :
    Mailbox.recvAll ch = ch.queue := by
  obtain ⟨c, q⟩ := ch
  induction q with
  | nil => simp [Mailbox.recvAll]
  | cons e rest ih => simpa [Mailbox.recvAll] using ih

/-- `recvAll` is iterated `recv`: whenever `recv` pops an envelope,
`recvAll` lists it first and continues on the remaining channel. -/
theorem Mailbox.recvAll_step (ch : MpscChannel α) (e : α) (ch' : MpscChannel α)
    (h : Mailbox.recv ch = (some e, ch')) :
    Mailbox.recvAll ch = e :: Mailbox.recvAll ch' := by
  obtain ⟨c, q⟩ := ch
  cases q with
  | nil => simp [Mailbox.recv] at h
  | cons x rest =>
    simp only [Mailbox.recv] at h
    obtain ⟨he, hc⟩ := Prod.mk.injEq .. ▸ h
    cases he
    cases hc
    simp [Mailbox.recvAll]

/-- `recvAll` stops exactly when `recv` yields nothing. -/
theorem Mailbox.recvAll_done (ch : MpscChannel α)
    (h : (Mailbox.recv ch).1 = none) :
    Mailbox.recvAll ch = [] := by
  obtain ⟨c, q⟩ := ch
  cases q with
  | nil => simp [Mailbox.recvAll]
  | cons x rest => simp [Mailbox.recv] at h

/-- `cleanup` drains the whole queue and preserves the closed flag. -/
theorem Mailbox.cleanup_spec (ch : MpscChannel α) :
    Mailbox.cleanup ch = { closed := ch.closed, queue := [] } := by
  obtain ⟨c, q⟩ := ch
  induction q with
  | nil => simp [Mailbox.cleanup]
  | cons e rest ih => simpa [Mailbox.cleanup] using ih

/-! ## Claims -/

/-- C1: `Postman::send_and_await_response` (the `ask` path) returns
`Ok(r)` exactly when the reply slot delivers `Ok(r)`; it returns
`MessageSendError` when the mailbox channel is closed before enqueueing,
`MessageResponseReceiveError` when the reply slot is dropped without a
value; and against a live Sequential actor the end-to-end round trip
returns the handler's true computed response. -/
theorem C1_ask_result_matches_slot
    (ch : MpscChannel (Packet M)) (message : M) (slot : ReplySlot)
    (received : Option (Except PuppeterError R)) :
    (ch.closed = true →
      (Postman.send_and_await_response ch message slot received).1
        = Except.error PuppeterError.MessageSendError)
    ∧ (ch.closed = false →
      ∀ r : R, (Postman.send_and_await_response ch message slot received).1
          = Except.ok r ↔ received = some (Except.ok r))
    ∧ (ch.closed = false → received = none →
      (Postman.send_and_await_response ch message slot received).1
        = Except.error PuppeterError.MessageResponseReceiveError)
    ∧ ∀ (hnd : P → M → P × R) (p : P),
        (ask_roundtrip hnd false p message).1 = Except.ok (hnd p message).2 := by
  refine ⟨fun hc => ?_, fun hc r => ?_, fun hc hr => ?_, fun hnd p => ?_⟩
  · simp [Postman.send_and_await_response, hc]
  · cases received with
    | none => simp [Postman.send_and_await_response, hc]
    | some v =>
      cases v with
      | ok x => simp [Postman.send_and_await_response, hc]
      | error e => simp [Postman.send_and_await_response, hc]
  · subst hr; simp [Postman.send_and_await_response, hc]
  · simp [ask_roundtrip, Packet.handle_message, Packet.with_reply, deliveredInto]

/-- C1 witness: on an open channel with the slot delivering `Ok 7`, the
caller gets `Ok 7`. -/
theorem C1_witness :
    (Postman.send_and_await_response (R := Nat)
        { closed := false, queue := [] } (5 : Nat) { receiverAlive := true }
        (some (Except.ok 7))).1 = Except.ok 7 :=
  ((C1_ask_result_matches_slot (P := Nat) { closed := false, queue := [] } 5
      { receiverAlive := true } (some (Except.ok 7))).2.1 rfl 7).mpr rfl

/-- C2: a `with_reply` packet handled under Sequential dispatch delivers
`Ok(handler response)` into the slot, so the awaiting receiver observes
it; a `without_reply` packet is handled without any attempted reply send,
without a panic, and with return value `Ok(())`. -/
theorem C2_packet_roundtrip
    (hnd : P → M → P × R) (p : P) (m : M) (slot : ReplySlot)
    (halive : slot.receiverAlive = true) :
    (∃ out, Packet.handle_message ExecutionVariant.Sequential hnd
        (Packet.with_reply m slot) p = some out
      ∧ out.delivered = some (Except.ok (hnd p m).2)
      ∧ out.ret = Except.ok ())
    ∧ (∃ out, Packet.handle_message ExecutionVariant.Sequential hnd
        (Packet.without_reply m) p = some out
      ∧ out.attempted = none ∧ out.delivered = none
      ∧ out.ret = Except.ok ()) := by
  constructor
  · exact ⟨_, rfl, by simp [Packet.handle_message, Packet.with_reply,
      deliveredInto, halive], rfl⟩
  · exact ⟨_, rfl, rfl, rfl, rfl⟩

/-- C2 witness: handler `fun p m => (p + m, p * m)` on puppet 10 and
message 3 yields `Ok 30` on the awaiting side. -/
theorem C2_witness :
    ∃ out, Packet.handle_message ExecutionVariant.Sequential
        (fun (p m : Nat) => (p + m, p * m))
        (Packet.with_reply 3 { receiverAlive := true }) 10 = some out
      ∧ out.delivered = some (Except.ok 30)
      ∧ out.ret = Except.ok () :=
  (C2_packet_roundtrip (fun (p m : Nat) => (p + m, p * m)) 10 3
    { receiverAlive := true } rfl).1

/-- C3: per-mailbox FIFO — for every sequence of messages pushed through
`Postman::send`, iterated `Mailbox::recv` yields the corresponding
`without_reply` envelopes in exactly the order they were sent; and
`recvAll` really is iterated `recv` (each step pops the next envelope and
it stops only when `recv` yields nothing). -/
theorem C3_fifo_order (ms : List M) :
    Mailbox.recvAll (Postman.sendAll { closed := false, queue := [] } ms)
      = ms.map Packet.without_reply
    ∧ (∀ ch ch' : MpscChannel (Packet M), ∀ e,
        Mailbox.recv ch = (some e, ch') →
        Mailbox.recvAll ch = e :: Mailbox.recvAll ch')
    ∧ (∀ ch : MpscChannel (Packet M),
        (Mailbox.recv ch).1 = none → Mailbox.recvAll ch = []) := by
  refine ⟨?_, fun ch ch' e h => Mailbox.recvAll_step ch e ch' h,
    fun ch h => Mailbox.recvAll_done ch h⟩
  rw [Postman.sendAll_queue ms _ rfl, Mailbox.recvAll_eq_queue]
  simp

/-- C3 witness: three messages sent through one Postman are received in
exactly the order sent, and one `recv` step pops the head envelope. -/
theorem C3_witness :
    (Mailbox.recvAll (Postman.sendAll { closed := false, queue := [] }
        [(1 : Nat), 2, 3])
      = [Packet.without_reply 1, Packet.without_reply 2, Packet.without_reply 3])
    ∧ Mailbox.recvAll (MpscChannel.mk false [Packet.without_reply (9 : Nat)])
      = Packet.without_reply 9
          :: Mailbox.recvAll (MpscChannel.mk false ([] : List (Packet Nat))) :=
  ⟨(C3_fifo_order [(1 : Nat), 2, 3]).1,
   (C3_fifo_order ([] : List Nat)).2.1
     { closed := false, queue := [Packet.without_reply 9] }
     { closed := false, queue := [] } (Packet.without_reply 9) rfl⟩

/-- C4: under Concurrent dispatch, `handle_message` leaves the canonical
puppet state unchanged; the handler runs against a clone, and only the
response computed on that clone is offered to the reply slot. -/
theorem C4_concurrent_frame (hnd : P → M → P × R)
    (pk : Packet M) (p : P) (m : M) (hm : pk.message = some m) :
    ∃ out, Packet.handle_message ExecutionVariant.Concurrent hnd pk p = some out
      ∧ out.puppet = p
      ∧ out.attempted = pk.reply_address.map (fun _ => Except.ok (hnd p m).2)
      ∧ out.ret = Except.ok () := by
  obtain ⟨m?, slot?⟩ := pk
  simp only at hm
  subst hm
  exact ⟨_, rfl, rfl, rfl, rfl⟩

/-- C4 witness: a mutating handler run concurrently on puppet 10 leaves
the canonical state at 10 while the slot is offered `Ok 30`. -/
theorem C4_witness :
    ∃ out, Packet.handle_message ExecutionVariant.Concurrent
        (fun (p m : Nat) => (p + m, p * m))
        (Packet.with_reply 3 { receiverAlive := true }) 10 = some out
      ∧ out.puppet = 10
      ∧ out.attempted = some (Except.ok 30)
      ∧ out.ret = Except.ok () := by
  obtain ⟨out, h1, h2, h3, h4⟩ :=
    C4_concurrent_frame (fun (p m : Nat) => (p + m, p * m))
      (Packet.with_reply 3 { receiverAlive := true }) 10 3 rfl
  exact ⟨out, h1, h2, by rw [h3]; rfl, h4⟩

/-- C5: freshly constructed packets carry `some` message, so the first
`handle_message` moves it out exactly once (the internal unwrap cannot
panic) and leaves a fully consumed packet; only an already-consumed
packet (message `none`) would hit the unwrap panic, and ownership makes
that state unreachable from the constructors. -/
theorem C5_message_taken_once (m : M) (slot : ReplySlot) :
    (Packet.with_reply m slot).message = some m
    ∧ (Packet.without_reply m).message = some m
    ∧ (∀ (v : ExecutionVariant) (hnd : P → M → P × R) (p : P),
        ∃ out, Packet.handle_message v hnd (Packet.with_reply m slot) p = some out
          ∧ out.packet.message = none ∧ out.packet.reply_address = none)
    ∧ (∀ (v : ExecutionVariant) (hnd : P → M → P × R) (p : P),
        ∃ out, Packet.handle_message v hnd (Packet.without_reply m) p = some out
          ∧ out.packet.message = none ∧ out.packet.reply_address = none)
    ∧ (∀ (v : ExecutionVariant) (hnd : P → M → P × R) (p : P) (pk : Packet M),
        pk.message = none → Packet.handle_message v hnd pk p = none) := by
  refine ⟨rfl, rfl, fun v hnd p => ?_, fun v hnd p => ?_, fun v hnd p pk hn => ?_⟩
  · cases v <;> exact ⟨_, rfl, rfl, rfl⟩
  · cases v <;> exact ⟨_, rfl, rfl, rfl⟩
  · obtain ⟨m?, slot?⟩ := pk
    simp only at hn
    subst hn
    cases v <;> rfl

/-- C5 witness: a fresh `with_reply` packet over `Nat` is handled without
panic and comes back fully consumed. -/
theorem C5_witness :
    (Packet.with_reply (5 : Nat) { receiverAlive := true }).message = some 5
    ∧ (∃ out, Packet.handle_message ExecutionVariant.Sequential
        (fun (p m : Nat) => (p + m, p * m))
        (Packet.with_reply 5 { receiverAlive := true }) 0 = some out
      ∧ out.packet.message = none ∧ out.packet.reply_address = none)
    ∧ Packet.handle_message ExecutionVariant.Sequential
        (fun (p m : Nat) => (p + m, p * m))
        { message := none, reply_address := none } 0 = none := by
  obtain ⟨h1, _, h3, _, h5⟩ :=
    C5_message_taken_once (P := Nat) (R := Nat) (5 : Nat) { receiverAlive := true }
  exact ⟨h1, h3 ExecutionVariant.Sequential (fun p m => (p + m, p * m)) 0,
    h5 ExecutionVariant.Sequential (fun p m => (p + m, p * m)) 0
      { message := none, reply_address := none } rfl⟩

/-- C6: `ServicePostman::send_and_await_response` yields exactly one
synchronous acknowledgement per command: `Ok(())` when the consumer
accepts, `Err(err)` when it rejects, `MessageSendError` when the control
channel is closed, `MessageResponseReceiveError` when the acknowledgement
slot is dropped without a value — the four cases cover every channel and
slot state, so no command is resolved silently with no result. -/
theorem C6_service_ack_exactly_one (ch : MpscChannel ServicePacket)
    (command : ServiceCommand) (slot : ReplySlot)
    (ack : Option (Except PuppeterError Unit)) :
    (ch.closed = true →
      (ServicePostman.send_and_await_response ch command slot ack).1
        = Except.error PuppeterError.MessageSendError)
    ∧ (ch.closed = false → ack = some (Except.ok ()) →
      (ServicePostman.send_and_await_response ch command slot ack).1
        = Except.ok ())
    ∧ (ch.closed = false → ∀ e, ack = some (Except.error e) →
      (ServicePostman.send_and_await_response ch command slot ack).1
        = Except.error e)
    ∧ (ch.closed = false → ack = none →
      (ServicePostman.send_and_await_response ch command slot ack).1
        = Except.error PuppeterError.MessageResponseReceiveError) := by
  refine ⟨fun hc => ?_, fun hc ha => ?_, fun hc e ha => ?_, fun hc ha => ?_⟩
  · simp [ServicePostman.send_and_await_response, hc]
  · subst ha; simp [ServicePostman.send_and_await_response, hc]
  · subst ha; simp [ServicePostman.send_and_await_response, hc]
  · subst ha; simp [ServicePostman.send_and_await_response, hc]

/-- C6 witness: an accepted `InitiateStop` on an open control channel is
acknowledged with `Ok(())`. -/
theorem C6_witness :
    (ServicePostman.send_and_await_response { closed := false, queue := [] }
        ServiceCommand.InitiateStop { receiverAlive := true }
        (some (Except.ok ()))).1 = Except.ok () :=
  (C6_service_ack_exactly_one { closed := false, queue := [] }
    ServiceCommand.InitiateStop { receiverAlive := true }
    (some (Except.ok ()))).2.1 rfl rfl

/-- C7: when the reply-slot receiver was already dropped (the caller
abandoned the request), the attempted reply send in `handle_message` and
in `reply_error` is silently swallowed: nothing is delivered, nothing
panics, and both functions still return `Ok(())`. -/
theorem C7_abandoned_receiver_swallowed (v : ExecutionVariant)
    (hnd : P → M → P × R) (m : M) (p : P) (m? : Option M)
    (err : PuppeterError) (slot : ReplySlot)
    (hdead : slot.receiverAlive = false) :
    (∃ out, Packet.handle_message v hnd (Packet.with_reply m slot) p = some out
      ∧ out.ret = Except.ok () ∧ out.delivered = none)
    ∧ (Packet.reply_error (R := R)
        { message := m?, reply_address := some slot } err).ret = Except.ok ()
    ∧ (Packet.reply_error (R := R)
        { message := m?, reply_address := some slot } err).delivered = none := by
  refine ⟨?_, rfl, ?_⟩
  · cases v <;>
      exact ⟨_, rfl, rfl, by simp [Packet.with_reply, deliveredInto, hdead]⟩
  · simp [Packet.reply_error, hdead]

/-- C7 witness: a concrete send-after-abandon on `Nat` messages is
swallowed with `Ok(())` returned and nothing delivered. -/
theorem C7_witness :
    (∃ out, Packet.handle_message ExecutionVariant.Sequential
        (fun (p m : Nat) => (p + m, p * m))
        (Packet.with_reply 4 { receiverAlive := false }) 2 = some out
      ∧ out.ret = Except.ok () ∧ out.delivered = none)
    ∧ (Packet.reply_error (R := Nat)
        { message := some (4 : Nat), reply_address := some { receiverAlive := false } }
        (PuppeterError.other "dead")).ret = Except.ok ()
    ∧ (Packet.reply_error (R := Nat)
        { message := some (4 : Nat), reply_address := some { receiverAlive := false } }
        (PuppeterError.other "dead")).delivered = none :=
  C7_abandoned_receiver_swallowed ExecutionVariant.Sequential
    (fun (p m : Nat) => (p + m, p * m)) 4 2 (some 4)
    (PuppeterError.other "dead") { receiverAlive := false } rfl

/-- C8: `reply_error(err)` on a packet with a reply slot sends `Err(err)`
into that slot (delivered whenever the receiver is alive) without running
any handler — the definition takes no puppet and no handler — and without
consuming the message; on a packet with no slot it is a no-op returning
`Ok(())`. -/
theorem C8_reply_error_spec (m? : Option M) (slot : ReplySlot)
    (err : PuppeterError) :
    (Packet.reply_error (R := R)
        { message := m?, reply_address := some slot } err).attempted
      = some (Except.error err)
    ∧ (Packet.reply_error (R := R)
        { message := m?, reply_address := some slot } err).delivered
      = (if slot.receiverAlive then some (Except.error err) else none)
    ∧ (Packet.reply_error (R := R)
        { message := m?, reply_address := some slot } err).packet.message = m?
    ∧ (Packet.reply_error (R := R)
        { message := m?, reply_address := some slot } err).ret = Except.ok ()
    ∧ Packet.reply_error (R := R) { message := m?, reply_address := none } err
      = { packet := { message := m?, reply_address := none }
          attempted := none, delivered := none, ret := Except.ok () } :=
  ⟨rfl, rfl, rfl, rfl, rfl⟩

/-- C9: `Mailbox::cleanup` terminates from every channel state (the model
function is total): it drains and discards all queued envelopes one
bounded-timeout receive at a time, preserves the closed flag, and stops
exactly when the bounded receive first yields no envelope — a timeout
when senders remain, channel closure when all senders are dropped. -/
theorem C9_cleanup_terminates (ch : MpscChannel α) :
    (Mailbox.cleanup ch).queue = []
    ∧ (Mailbox.cleanup ch).closed = ch.closed
    ∧ (Mailbox.recv_timeout (Mailbox.cleanup ch)).1
        = (if ch.closed then TimedRecv.closed else TimedRecv.timedOut)
    ∧ (∀ (c : Bool) (e : α) (rest : List α),
        Mailbox.cleanup { closed := c, queue := e :: rest }
          = Mailbox.cleanup { closed := c, queue := rest })
    ∧ (∀ c : Bool, Mailbox.cleanup { closed := c, queue := ([] : List α) }
        = { closed := c, queue := [] }) := by
  refine ⟨?_, ?_, ?_,
    fun c e rest => by rw [Mailbox.cleanup_spec, Mailbox.cleanup_spec],
    fun c => Mailbox.cleanup_spec { closed := c, queue := [] }⟩
  · rw [Mailbox.cleanup_spec]
  · rw [Mailbox.cleanup_spec]
  · rw [Mailbox.cleanup_spec]
    cases hc : ch.closed <;> simp [Mailbox.recv_timeout]

/-- C10: `handle_message` only ever offers `Ok`-wrapped values to the
reply slot — never an `Err` — under every execution variant, while
`reply_error` is exactly the operation that delivers `Err`; consequently
an `ask` that resolves to an error other than
`MessageResponseReceiveError` on an open channel can only have received
that error from the slot, i.e. the envelope was failed rather than
handled. -/
theorem C10_err_only_via_reply_error (v : ExecutionVariant)
    (hnd : P → M → P × R) (pk : Packet M) (p : P) :
    (∀ out, Packet.handle_message v hnd pk p = some out →
      ∀ e, out.attempted ≠ some (Except.error e)
        ∧ out.delivered ≠ some (Except.error e))
    ∧ (∀ (m? : Option M) (slot : ReplySlot) (err : PuppeterError),
        (Packet.reply_error (R := R)
            { message := m?, reply_address := some slot } err).attempted
          = some (Except.error err))
    ∧ (∀ (ch : MpscChannel (Packet M)) (msg : M) (slot : ReplySlot)
        (received : Option (Except PuppeterError R)) (e : PuppeterError),
        ch.closed = false →
        (Postman.send_and_await_response ch msg slot received).1
          = Except.error e →
        e ≠ PuppeterError.MessageResponseReceiveError →
        received = some (Except.error e)) := by
  refine ⟨fun out hout e => ?_, fun m? slot err => rfl,
    fun ch msg slot received e hc hres hne => ?_⟩
  · obtain ⟨m?, slot?⟩ := pk
    cases m? with
    | none => cases v <;> simp [Packet.handle_message] at hout
    | some m =>
      cases v <;>
        · simp only [Packet.handle_message] at hout
          cases hout
          constructor
          · cases slot? <;> simp
          · cases slot? with
            | none => simp [deliveredInto]
            | some s => cases hs : s.receiverAlive <;> simp [deliveredInto, hs]
  · cases received with
    | none =>
      simp [Postman.send_and_await_response, hc] at hres
      exact absurd hres.symm hne
    | some r =>
      cases r with
      | ok x => simp [Postman.send_and_await_response, hc] at hres
      | error x =>
        simp only [Postman.send_and_await_response, hc] at hres
        simp only [Bool.false_eq_true, if_false] at hres
        cases hres
        rfl

/-- C10 witness: a Sequential handling offers no error, `reply_error`
offers exactly its error, and an open-channel ask resolving to a
non-receive error pins the slot's content. -/
theorem C10_witness :
    (∀ out, Packet.handle_message ExecutionVariant.Sequential
        (fun (p m : Nat) => (p + m, p * m))
        (Packet.with_reply 1 { receiverAlive := true }) 0 = some out →
      ∀ e, out.attempted ≠ some (Except.error e)
        ∧ out.delivered ≠ some (Except.error e))
    ∧ (Packet.reply_error (R := Nat)
        { message := some (1 : Nat), reply_address := some { receiverAlive := true } }
        (PuppeterError.other "down")).attempted
      = some (Except.error (PuppeterError.other "down")) := by
  obtain ⟨h1, h2, _⟩ :=
    C10_err_only_via_reply_error ExecutionVariant.Sequential
      (fun (p m : Nat) => (p + m, p * m))
      (Packet.with_reply 1 { receiverAlive := true }) 0
  exact ⟨h1, h2 (some 1) { receiverAlive := true } (PuppeterError.other "down")⟩

end MasterOfPuppets
